import Mathlib

/-!
Verification of the flight search and booking engine of the repository
(`app/routes.py` and `app/passenger.py` over the SQLAlchemy models in
`app/models.py`).

Modelling choices:
* Dates are days since an epoch (`Nat`), times of day are minutes since
  midnight (`Nat`); `datetime.combine` becomes `day * 1440 + minute`, and
  `datetime.date()` becomes division by 1440.  `timedelta(hours=2)` is 120
  minutes; `total_seconds()/3600` is division of the minute difference by 60.
* SQL `Numeric(10,2)` prices and the Python float arithmetic on them are
  modelled with `ℚ` (exact decimal values).
* `posti_disponibili` is an `Int`, so that an erroneous decrement below zero
  would be visible rather than truncated.
* A table is a `List` of rows; a query `.filter(...).all()` is `List.filter`,
  `query.get` is `List.find?` on the primary key.
* The seat decrement `UPDATE voli SET posti_disponibili = posti_disponibili - 1
  WHERE id_volo = :id AND posti_disponibili > 0` (passenger.py lines 113-121)
  is one atomic step: `reserve_seat_count` is the reported row count and
  `reserve_seat_apply` the updated table.
* The SQLAlchemy session of `acquista_biglietto` spans the decrement, the
  ticket insert and the commit; an exception before the commit triggers
  `db.session.rollback()`, so a failed call returns the durable state
  unchanged.  The flag `commit_fails` injects a storage failure at the
  commit boundary.
-/

namespace BasiDiDati

/-- `datetime.combine(d, t)` in minutes since the epoch. -/
def datetimeCombine (d t : Nat) : Nat := d * 1440 + t

/-- Row of table `voli` (`app/models.py`, class `Volo`).  Fields irrelevant to
the core (`id_compagnia`, `id_aereo`) are omitted. -/
structure Volo where
  id_volo : Nat
  data_partenza : Nat
  ora_partenza : Nat
  data_arrivo : Nat
  ora_arrivo : Nat
  posti_disponibili : Int
  aeroporto_partenza : Nat
  aeroporto_destinazione : Nat
  prezzo_economy : ℚ
  prezzo_business : ℚ
  prezzo_first : ℚ
deriving DecidableEq, Repr

/-- `Volo.datetime_partenza` property of the model. -/
def Volo.datetime_partenza (v : Volo) : Nat :=
  datetimeCombine v.data_partenza v.ora_partenza

/-- `Volo.datetime_arrivo` property of the model. -/
def Volo.datetime_arrivo (v : Volo) : Nat :=
  datetimeCombine v.data_arrivo v.ora_arrivo

/-- Row of table `biglietti` (`app/models.py`, class `Biglietto`); the N:M
`extra` relationship is the list of attached extra ids. -/
structure Biglietto where
  data_acquisto : Nat
  prezzo : ℚ
  classe : String
  posto : Option String
  id_passeggero : Nat
  id_volo : Nat
  extra : List Nat
deriving DecidableEq, Repr

/-- Row of table `extra` (`app/models.py`, class `Extra`). -/
structure Extra where
  id_extra : Nat
  nome : String
  costo : ℚ
deriving DecidableEq, Repr

/-- The durable database state seen by the core: the three tables it touches. -/
structure DB where
  voli : List Volo
  biglietti : List Biglietto
  extras : List Extra
deriving DecidableEq, Repr

/-! ### Itinerary search (`app/routes.py`, `search_flights`) -/

/-- One entry of the `results` list built by `search_flights`: either a
`{'type': 'direct', 'volo': v, 'stops': s, 'prezzo': p}` dict or a
`{'type': 'connecting', 'voli': [v1, v2], 'stops': s, 'layover_hours': lh,
'prezzo': p}` dict.  The stored fields are kept explicit so that theorems about
them are about what the code wrote into the dict. -/
inductive SearchEntry where
  | direct (volo : Volo) (stops : Nat) (prezzo : ℚ)
  | connecting (volo1 volo2 : Volo) (stops : Nat) (layover_hours : ℚ) (prezzo : ℚ)
deriving DecidableEq, Repr

/-- The `prezzo` field of a result entry. -/
def SearchEntry.prezzo : SearchEntry → ℚ
  | .direct _ _ p => p
  | .connecting _ _ _ _ p => p

/-- The `stops` field of a result entry. -/
def SearchEntry.stops : SearchEntry → Nat
  | .direct _ s _ => s
  | .connecting _ _ s _ _ => s

/-- The `durata` key computed (in minutes) by the `sort_by == 'durata'` branch:
single-leg elapsed time for a direct entry, `F2.arrival - F1.departure` for a
connecting one. -/
def SearchEntry.durata : SearchEntry → ℚ
  | .direct v _ _ => (v.datetime_arrivo : ℚ) - (v.datetime_partenza : ℚ)
  | .connecting v1 v2 _ _ _ => (v2.datetime_arrivo : ℚ) - (v1.datetime_partenza : ℚ)

/-- The `voli_diretti` query (routes.py lines 37-44). -/
def voli_diretti (voli : List Volo) (aeroporto_partenza_id aeroporto_destinazione_id
    data_partenza : Nat) : List Volo :=
  voli.filter fun v => decide
    (v.aeroporto_partenza = aeroporto_partenza_id ∧
     v.aeroporto_destinazione = aeroporto_destinazione_id ∧
     v.data_partenza = data_partenza ∧
     0 < v.posti_disponibili)

/-- The `first_leg` query (routes.py lines 56-62). -/
def first_leg (voli : List Volo) (aeroporto_partenza_id data_partenza : Nat) :
    List Volo :=
  voli.filter fun v => decide
    (v.aeroporto_partenza = aeroporto_partenza_id ∧
     v.data_partenza = data_partenza ∧
     0 < v.posti_disponibili)

/-- The `second_leg` query for a fixed `volo1` (routes.py lines 71-78);
`min_departure_time = datetime_arrivo1 + timedelta(hours=2)`, and the date
filter compares against `min_departure_time.date()`. -/
def second_leg (voli : List Volo) (volo1 : Volo) (aeroporto_destinazione_id : Nat) :
    List Volo :=
  voli.filter fun v => decide
    (v.aeroporto_partenza = volo1.aeroporto_destinazione ∧
     v.aeroporto_destinazione = aeroporto_destinazione_id ∧
     (volo1.datetime_arrivo + 120) / 1440 ≤ v.data_partenza ∧
     0 < v.posti_disponibili)

/-- The direct part of `results` (routes.py lines 46-52). -/
def directEntries (voli : List Volo) (part dest data : Nat) : List SearchEntry :=
  (voli_diretti voli part dest data).map fun v =>
    .direct v 0 v.prezzo_economy

/-- The connecting part of `results` (routes.py lines 64-93): for each first
leg, each second-leg candidate passing the in-loop check
`datetime_partenza2 >= min_departure_time` contributes one entry with
`layover_hours = (datetime_partenza2 - datetime_arrivo1).total_seconds()/3600`. -/
def connectingEntries (voli : List Volo) (part dest data : Nat) : List SearchEntry :=
  (first_leg voli part data).flatMap fun volo1 =>
    (second_leg voli volo1 dest).filterMap fun volo2 =>
      if volo1.datetime_arrivo + 120 ≤ volo2.datetime_partenza then
        some (.connecting volo1 volo2 1
          (((volo2.datetime_partenza : ℚ) - (volo1.datetime_arrivo : ℚ)) / 60)
          (volo1.prezzo_economy + volo2.prezzo_economy))
      else none

/-- The sort step (routes.py lines 95-114).  Python `list.sort` is a stable
ascending sort by the key, which is exactly `List.insertionSort` with the
non-strict key comparison; an unrecognised `sort` parameter leaves the list
as built. -/
def sortResults (sort_by : String) (results : List SearchEntry) : List SearchEntry :=
  if sort_by = "prezzo" then
    results.insertionSort fun a b => a.prezzo ≤ b.prezzo
  else if sort_by = "durata" then
    results.insertionSort fun a b => a.durata ≤ b.durata
  else if sort_by = "soste" then
    results.insertionSort fun a b => a.stops ≤ b.stops
  else results

/-- The whole `search_flights` computation on the validated path: direct
results, then connecting results, then the selected sort. -/
def search_flights (voli : List Volo) (part dest data : Nat) (sort_by : String) :
    List SearchEntry :=
  sortResults sort_by (directEntries voli part dest data ++ connectingEntries voli part dest data)

/-- `search_flights` as an operation on the database state: it only issues
SELECT queries (routes.py lines 17-116 contain no update and no commit), so
the state component is returned untouched. -/
def searchOp (s : DB) (part dest data : Nat) (sort_by : String) :
    List SearchEntry × DB :=
  (search_flights s.voli part dest data sort_by, s)

/-! ### Ticket purchase (`app/passenger.py`, `acquista_biglietto`) -/

/-- Outcome of one purchase call, in the vocabulary of the specification:
`success` is the committed redirect to the dashboard, `soldOut` the
`updated_rows == 0` branch, `flightNotFound` the `get_or_404` abort, and
`purchaseFailed` the `except` branch that rolls the session back. -/
inductive PurchaseResult where
  | success (biglietto : Biglietto)
  | soldOut
  | flightNotFound
  | purchaseFailed
deriving DecidableEq, Repr

/-- Row count reported by the conditional UPDATE of passenger.py lines 113-121:
the number of rows with the given id and a seat left. -/
def reserve_seat_count (voli : List Volo) (volo_id : Nat) : Nat :=
  (voli.filter fun v =>
    decide (v.id_volo = volo_id ∧ 0 < v.posti_disponibili)).length

/-- Table produced by that UPDATE: every row matching the WHERE clause is
decremented by one, in the same atomic step that produced the count. -/
def reserve_seat_apply (voli : List Volo) (volo_id : Nat) : List Volo :=
  voli.map fun v =>
    if v.id_volo = volo_id ∧ 0 < v.posti_disponibili then
      { v with posti_disponibili := v.posti_disponibili - 1 }
    else v

/-- Class price lookup (passenger.py lines 128-133): the `prezzi` dict indexed
by the form value, with the economy price as the `.get` default for an unknown
or empty class. -/
def prezzoClasse (volo : Volo) (classe : String) : ℚ :=
  if classe = "economy" then volo.prezzo_economy
  else if classe = "business" then volo.prezzo_business
  else if classe = "first" then volo.prezzo_first
  else volo.prezzo_economy

/-- The extras loop (passenger.py lines 147-152): each requested id is looked
up with `Extra.query.get`; ids that resolve are kept in order, ids that do not
are skipped. -/
def resolveExtras (extras : List Extra) (extra_ids : List Nat) : List Extra :=
  extra_ids.filterMap fun i => extras.find? fun e => decide (e.id_extra = i)

/-- The `Biglietto(...)` construction plus the extras loop (passenger.py lines
136-155): the ticket starts at the class price and accumulates the cost of
every extra id that resolves, in request order. -/
def nuovoBiglietto (volo : Volo) (extras : List Extra) (passeggero_id : Nat)
    (classe : String) (posto : Option String) (extra_ids : List Nat)
    (oggi : Nat) : Biglietto :=
  let resolved := resolveExtras extras extra_ids
  { data_acquisto := oggi
    prezzo := prezzoClasse volo classe + (resolved.map Extra.costo).sum
    classe := classe
    posto := posto
    id_passeggero := passeggero_id
    id_volo := volo.id_volo
    extra := resolved.map Extra.id_extra }

/-- The validated-POST body of `acquista_biglietto` (passenger.py lines
107-178) as one database transaction.  `oggi` is `date.today()`;
`commit_fails` injects a storage failure at `db.session.commit()`, in which
case `db.session.rollback()` discards both the seat decrement and the ticket
insert, leaving the durable state `s` unchanged. -/
def acquista_biglietto (s : DB) (passeggero_id volo_id : Nat) (classe : String)
    (posto : Option String) (extra_ids : List Nat) (oggi : Nat)
    (commit_fails : Bool) : PurchaseResult × DB :=
  match s.voli.find? fun v => decide (v.id_volo = volo_id) with
  | none => (.flightNotFound, s)
  | some volo =>
    let updated_rows := reserve_seat_count s.voli volo_id
    if updated_rows = 0 then
      (.soldOut, s)
    else
      let biglietto := nuovoBiglietto volo s.extras passeggero_id classe posto
        extra_ids oggi
      if commit_fails then
        (.purchaseFailed, s)
      else
        (.success biglietto,
         { s with voli := reserve_seat_apply s.voli volo_id,
                  biglietti := s.biglietti ++ [biglietto] })

/-- The arguments of one purchase call. -/
structure PurchaseCall where
  passeggero_id : Nat
  volo_id : Nat
  classe : String
  posto : Option String
  extra_ids : List Nat
  oggi : Nat
  commit_fails : Bool
deriving DecidableEq, Repr

/-- Run one purchase call. -/
def runPurchase (s : DB) (c : PurchaseCall) : PurchaseResult × DB :=
  acquista_biglietto s c.passeggero_id c.volo_id c.classe c.posto c.extra_ids
    c.oggi c.commit_fails

/-- Run a list of purchase calls in order.  Each call's seat decrement is a
single atomic conditional UPDATE, the sole synchronization point, so an
arbitrary interleaving of concurrent calls is linearized as some sequential
order of the calls; this function ranges over every such order. -/
def runPurchases (s : DB) : List PurchaseCall → List PurchaseResult × DB
  | [] => ([], s)
  | c :: cs =>
    let out := runPurchase s c
    let rest := runPurchases out.2 cs
    (out.1 :: rest.1, rest.2)

/-- A core operation: a search or a purchase. -/
inductive Op where
  | search (part dest data : Nat) (sort_by : String)
  | purchase (c : PurchaseCall)
deriving Repr

/-- State transition of one core operation. -/
def runOp (s : DB) : Op → DB
  | .search part dest data sort_by => (searchOp s part dest data sort_by).2
  | .purchase c => (runPurchase s c).2

/-- State after a sequence of core operations. -/
def runOps (s : DB) (ops : List Op) : DB := ops.foldl runOp s

/-- Every flight row has a non-negative seat counter (the CHECK constraint
`posti_disponibili >= 0` of the `voli` table). -/
def seatsNonneg (s : DB) : Prop :=
  ∀ v ∈ s.voli, 0 ≤ v.posti_disponibili

/-- Seat counter of the flight with a given id, if any. -/
def seatsOf (voli : List Volo) (volo_id : Nat) : Option Int :=
  (voli.find? fun v => decide (v.id_volo = volo_id)).map Volo.posti_disponibili

/-- Whether a purchase outcome is a committed ticket. -/
def PurchaseResult.isSuccess : PurchaseResult → Bool
  | .success _ => true
  | _ => false

/-- Whether a result entry is a direct itinerary. -/
def SearchEntry.isDirect : SearchEntry → Bool
  | .direct _ _ _ => true
  | .connecting _ _ _ _ _ => false

/-- The `second_leg` query with the date pre-filter removed: route,
destination and availability conditions only. -/
def second_leg_senza_data (voli : List Volo) (volo1 : Volo)
    (aeroporto_destinazione_id : Nat) : List Volo :=
  voli.filter fun v => decide
    (v.aeroporto_partenza = volo1.aeroporto_destinazione ∧
     v.aeroporto_destinazione = aeroporto_destinazione_id ∧
     0 < v.posti_disponibili)

/-- `connectingEntries` recomputed from the unfiltered second-leg candidates:
only the in-loop layover check constrains the second leg. -/
def connectingEntriesSenzaData (voli : List Volo) (part dest data : Nat) :
    List SearchEntry :=
  (first_leg voli part data).flatMap fun volo1 =>
    (second_leg_senza_data voli volo1 dest).filterMap fun volo2 =>
      if volo1.datetime_arrivo + 120 ≤ volo2.datetime_partenza then
        some (.connecting volo1 volo2 1
          (((volo2.datetime_partenza : ℚ) - (volo1.datetime_arrivo : ℚ)) / 60)
          (volo1.prezzo_economy + volo2.prezzo_economy))
      else none

/-- Price contribution of the requested extras, written as the specification
puts it: each requested id contributes the cost of the extra it resolves to,
and nothing when it does not resolve. -/
def extrasCostSpec (extras : List Extra) (extra_ids : List Nat) : ℚ :=
  (extra_ids.map fun i =>
    (((extras.find? fun e => decide (e.id_extra = i)).map Extra.costo).getD 0)).sum

/-! ### Concrete fixtures -/

/-- Flight 1→2, day 0, 08:00→10:00, 5 seats, economy 100. -/
def voloAB : Volo := ⟨1, 0, 480, 0, 600, 5, 1, 2, 100, 200, 300⟩

/-- Flight 2→3, day 0, departs 12:00 — exactly 2h after voloAB arrives. -/
def voloBC2h : Volo := ⟨2, 0, 720, 0, 840, 5, 2, 3, 80, 160, 240⟩

/-- Flight 2→3, day 0, departs 11:59 — 1h59m after voloAB arrives. -/
def voloBC1h59 : Volo := ⟨3, 0, 719, 0, 840, 5, 2, 3, 80, 160, 240⟩

/-- Direct flight 1→3, day 0, economy 500. -/
def voloAC : Volo := ⟨4, 0, 1000, 0, 1100, 5, 1, 3, 500, 600, 700⟩

/-- Flight 1→2 arriving day 0 at 23:30. -/
def voloNotte1 : Volo := ⟨5, 0, 1200, 0, 1410, 5, 1, 2, 100, 200, 300⟩

/-- Flight 2→3 departing day 1 at 01:30 — exactly 2h after voloNotte1 lands. -/
def voloNotte2 : Volo := ⟨6, 1, 90, 1, 200, 5, 2, 3, 80, 160, 240⟩

/-- Three direct flights 1→2 on day 0 priced 300, 100, 200. -/
def voloP300 : Volo := ⟨7, 0, 480, 0, 600, 5, 1, 2, 300, 400, 500⟩

def voloP100 : Volo := ⟨8, 0, 500, 0, 620, 5, 1, 2, 100, 400, 500⟩

def voloP200 : Volo := ⟨9, 0, 520, 0, 640, 5, 1, 2, 200, 400, 500⟩

/-- A flight with one seat left, and a database holding only it. -/
def voloUno : Volo := ⟨1, 0, 480, 0, 600, 1, 1, 2, 100, 200, 300⟩

def dbUno : DB := ⟨[voloUno], [], []⟩

/-- A flight with three seats, and a database with it and one 30-cost extra. -/
def voloW : Volo := ⟨1, 0, 480, 0, 600, 3, 1, 2, 100, 200, 300⟩

def dbW : DB := ⟨[voloW], [], [⟨1, "bagaglio", 30⟩]⟩

/-- A sold-out flight and a database holding only it. -/
def voloZero : Volo := ⟨2, 0, 700, 0, 800, 0, 2, 3, 80, 160, 240⟩

def dbZero : DB := ⟨[voloZero], [], []⟩

def callW1 : PurchaseCall := ⟨10, 1, "economy", none, [], 0, false⟩

def callW2 : PurchaseCall := ⟨11, 1, "economy", none, [], 0, false⟩

/-! ### Lemmas about the seat ledger -/

theorem find?_reserve_seat_apply (voli : List Volo) (fid gid : Nat) :
    (reserve_seat_apply voli fid).find? (fun v => decide (v.id_volo = gid)) =
      (voli.find? fun v => decide (v.id_volo = gid)).map
        (fun v => if v.id_volo = fid ∧ 0 < v.posti_disponibili then
          { v with posti_disponibili := v.posti_disponibili - 1 } else v) := by
  unfold reserve_seat_apply
  rw [List.find?_map]
  have hpf : ((fun v => decide (v.id_volo = gid)) ∘ fun v =>
      if v.id_volo = fid ∧ 0 < v.posti_disponibili then
        { v with posti_disponibili := v.posti_disponibili - 1 } else v) =
      fun v : Volo => decide (v.id_volo = gid) := by
    funext v
    by_cases h : v.id_volo = fid ∧ 0 < v.posti_disponibili <;>
      simp [Function.comp, h]
  rw [hpf]

theorem map_id_reserve_seat_apply (voli : List Volo) (fid : Nat) :
    (reserve_seat_apply voli fid).map Volo.id_volo = voli.map Volo.id_volo := by
  unfold reserve_seat_apply
  rw [List.map_map]
  have hpf : (Volo.id_volo ∘ fun v =>
      if v.id_volo = fid ∧ 0 < v.posti_disponibili then
        { v with posti_disponibili := v.posti_disponibili - 1 } else v) =
      Volo.id_volo := by
    funext v
    by_cases h : v.id_volo = fid ∧ 0 < v.posti_disponibili <;>
      simp [Function.comp, h]
  rw [hpf]

theorem seatsOf_reserve_seat_apply_self (voli : List Volo) (fid : Nat) (v : Volo)
    (h : voli.find? (fun w => decide (w.id_volo = fid)) = some v) :
    seatsOf (reserve_seat_apply voli fid) fid =
      some (if 0 < v.posti_disponibili then v.posti_disponibili - 1
            else v.posti_disponibili) := by
  have hv : v.id_volo = fid := by simpa using List.find?_some h
  by_cases hp : 0 < v.posti_disponibili <;>
    simp [seatsOf, find?_reserve_seat_apply, h, hv, hp]

theorem seatsOf_reserve_seat_apply_other (voli : List Volo) (fid gid : Nat)
    (hne : gid ≠ fid) :
    seatsOf (reserve_seat_apply voli fid) gid = seatsOf voli gid := by
  simp only [seatsOf, find?_reserve_seat_apply]
  cases hf : voli.find? fun w => decide (w.id_volo = gid) with
  | none => simp
  | some w =>
    have hw : w.id_volo = gid := by simpa using List.find?_some hf
    simp [hw, hne]

theorem reserve_seat_count_eq_zero (voli : List Volo) (fid : Nat)
    (h : voli.find? (fun w => decide (w.id_volo = fid)) = none) :
    reserve_seat_count voli fid = 0 := by
  have hall := List.find?_eq_none.mp h
  unfold reserve_seat_count
  rw [List.length_eq_zero, List.filter_eq_nil_iff]
  intro v hv
  have := hall v hv
  simp at this
  simp [this]

theorem reserve_seat_count_eq (voli : List Volo) (fid : Nat) (v : Volo)
    (hnd : (voli.map Volo.id_volo).Nodup)
    (h : voli.find? (fun w => decide (w.id_volo = fid)) = some v) :
    reserve_seat_count voli fid = if 0 < v.posti_disponibili then 1 else 0 := by
  induction voli with
  | nil => simp at h
  | cons w l ih =>
    rw [List.find?_cons] at h
    rw [List.map_cons, List.nodup_cons] at hnd
    unfold reserve_seat_count
    by_cases hw : w.id_volo = fid
    · have hv : v = w := by
        simp [hw] at h
        exact h.symm
      subst hv
      have htail : ∀ u ∈ l, ¬(u.id_volo = fid ∧ 0 < u.posti_disponibili) := by
        intro u hu hc
        exact hnd.1 (hw ▸ hc.1 ▸ List.mem_map_of_mem Volo.id_volo hu)
      have hclose : ∀ a ∈ l, a.id_volo = fid → a.posti_disponibili ≤ 0 := by
        intro a ha hid
        exact le_of_not_lt fun hpos => htail a ha ⟨hid, hpos⟩
      by_cases hp : 0 < v.posti_disponibili <;>
        simpa [List.filter_cons, hw, hp] using hclose
    · have h' : l.find? (fun w => decide (w.id_volo = fid)) = some v := by
        simpa [hw] using h
      have hrec := ih hnd.2 h'
      unfold reserve_seat_count at hrec
      rw [List.filter_cons, if_neg (by simp [hw])]
      exact hrec

/-! ### Lemmas about one purchase call -/

theorem acquista_biglietto_not_found (s : DB) (pid fid : Nat) (cl : String)
    (po : Option String) (ex : List Nat) (og : Nat) (cf : Bool)
    (h : s.voli.find? (fun w => decide (w.id_volo = fid)) = none) :
    acquista_biglietto s pid fid cl po ex og cf = (.flightNotFound, s) := by
  simp [acquista_biglietto, h]

theorem acquista_biglietto_soldout (s : DB) (pid fid : Nat) (cl : String)
    (po : Option String) (ex : List Nat) (og : Nat) (cf : Bool) (v : Volo)
    (hnd : (s.voli.map Volo.id_volo).Nodup)
    (h : s.voli.find? (fun w => decide (w.id_volo = fid)) = some v)
    (hp : v.posti_disponibili ≤ 0) :
    acquista_biglietto s pid fid cl po ex og cf = (.soldOut, s) := by
  have hc := reserve_seat_count_eq s.voli fid v hnd h
  rw [if_neg (not_lt.mpr hp)] at hc
  simp [acquista_biglietto, h, hc]

theorem acquista_biglietto_success (s : DB) (pid fid : Nat) (cl : String)
    (po : Option String) (ex : List Nat) (og : Nat) (v : Volo)
    (hnd : (s.voli.map Volo.id_volo).Nodup)
    (h : s.voli.find? (fun w => decide (w.id_volo = fid)) = some v)
    (hp : 0 < v.posti_disponibili) :
    acquista_biglietto s pid fid cl po ex og false =
      (.success (nuovoBiglietto v s.extras pid cl po ex og),
       { s with voli := reserve_seat_apply s.voli fid,
                biglietti := s.biglietti ++ [nuovoBiglietto v s.extras pid cl po ex og] }) := by
  have hc := reserve_seat_count_eq s.voli fid v hnd h
  rw [if_pos hp] at hc
  simp [acquista_biglietto, h, hc]

theorem acquista_biglietto_rollback (s : DB) (pid fid : Nat) (cl : String)
    (po : Option String) (ex : List Nat) (og : Nat) (v : Volo)
    (hnd : (s.voli.map Volo.id_volo).Nodup)
    (h : s.voli.find? (fun w => decide (w.id_volo = fid)) = some v)
    (hp : 0 < v.posti_disponibili) :
    acquista_biglietto s pid fid cl po ex og true = (.purchaseFailed, s) := by
  have hc := reserve_seat_count_eq s.voli fid v hnd h
  rw [if_pos hp] at hc
  simp [acquista_biglietto, h, hc]

/-! ### Non-negativity of the seat counters -/

theorem nonneg_reserve_seat_apply (voli : List Volo) (fid : Nat)
    (h : ∀ v ∈ voli, 0 ≤ v.posti_disponibili) :
    ∀ v ∈ reserve_seat_apply voli fid, 0 ≤ v.posti_disponibili := by
  intro w hw
  obtain ⟨u, hu, rfl⟩ := List.mem_map.mp hw
  by_cases hc : u.id_volo = fid ∧ 0 < u.posti_disponibili
  · rw [if_pos hc]
    show 0 ≤ u.posti_disponibili - 1
    have := hc.2
    omega
  · rw [if_neg hc]
    exact h u hu

theorem seatsNonneg_acquista (s : DB) (pid fid : Nat) (cl : String)
    (po : Option String) (ex : List Nat) (og : Nat) (cf : Bool)
    (h : seatsNonneg s) :
    seatsNonneg (acquista_biglietto s pid fid cl po ex og cf).2 := by
  cases hfind : s.voli.find? fun v => decide (v.id_volo = fid) with
  | none => simpa [acquista_biglietto, hfind] using h
  | some volo =>
    by_cases hcount : reserve_seat_count s.voli fid = 0
    · simpa [acquista_biglietto, hfind, hcount] using h
    · cases cf with
      | true => simpa [acquista_biglietto, hfind, hcount] using h
      | false =>
        have hg : (acquista_biglietto s pid fid cl po ex og false).2.voli =
            reserve_seat_apply s.voli fid := by
          simp [acquista_biglietto, hfind, hcount]
        intro w hw
        rw [hg] at hw
        exact nonneg_reserve_seat_apply s.voli fid h w hw

theorem seatsNonneg_runOp (s : DB) (op : Op) (h : seatsNonneg s) :
    seatsNonneg (runOp s op) := by
  cases op with
  | search part dest data sort_by => exact h
  | purchase c =>
    exact seatsNonneg_acquista s c.passeggero_id c.volo_id c.classe c.posto
      c.extra_ids c.oggi c.commit_fails h

theorem seatsNonneg_runOps (s : DB) (ops : List Op) (h : seatsNonneg s) :
    seatsNonneg (runOps s ops) := by
  induction ops generalizing s with
  | nil => exact h
  | cons op ops ih => exact ih (runOp s op) (seatsNonneg_runOp s op h)

/-! ### Counting the outcomes of a sequence of purchase calls -/

theorem find?_after_reserve (s : DB) (fid : Nat) (v : Volo)
    (hf : s.voli.find? (fun w => decide (w.id_volo = fid)) = some v)
    (hp : 0 < v.posti_disponibili) :
    (reserve_seat_apply s.voli fid).find? (fun w => decide (w.id_volo = fid)) =
      some { v with posti_disponibili := v.posti_disponibili - 1 } := by
  have hv : v.id_volo = fid := by simpa using List.find?_some hf
  rw [find?_reserve_seat_apply, hf]
  simp [hv, hp]

theorem runPurchases_spec (calls : List PurchaseCall) :
    ∀ (s : DB) (fid : Nat) (v : Volo) (N : Nat),
    (s.voli.map Volo.id_volo).Nodup →
    s.voli.find? (fun w => decide (w.id_volo = fid)) = some v →
    v.posti_disponibili = (N : Int) →
    (∀ c ∈ calls, c.volo_id = fid ∧ c.commit_fails = false) →
    ((runPurchases s calls).1.filter (fun r => r.isSuccess)).length
        = min N calls.length ∧
    ((runPurchases s calls).1.filter
        (fun r => decide (r = PurchaseResult.soldOut))).length
        = calls.length - min N calls.length ∧
    seatsOf (runPurchases s calls).2.voli fid
        = some ((N - min N calls.length : Nat) : Int) ∧
    (runPurchases s calls).2.biglietti.length
        = s.biglietti.length + min N calls.length := by
  induction calls with
  | nil =>
    intro s fid v N hnd hf hpos _
    refine ⟨by simp [runPurchases], by simp [runPurchases], ?_, by simp [runPurchases]⟩
    simp [runPurchases, seatsOf, hf, hpos]
  | cons c cs ih =>
    intro s fid v N hnd hf hpos hcalls
    obtain ⟨hcv, hccf⟩ := hcalls c (List.mem_cons_self c cs)
    have hcalls' : ∀ c' ∈ cs, c'.volo_id = fid ∧ c'.commit_fails = false :=
      fun c' hc' => hcalls c' (List.mem_cons_of_mem _ hc')
    match N with
    | 0 =>
      have hstep : runPurchase s c = (.soldOut, s) := by
        unfold runPurchase
        rw [hcv, hccf]
        exact acquista_biglietto_soldout s c.passeggero_id fid c.classe c.posto
          c.extra_ids c.oggi false v hnd hf (by rw [hpos]; simp)
      have hrun : runPurchases s (c :: cs) =
          (PurchaseResult.soldOut :: (runPurchases s cs).1, (runPurchases s cs).2) := by
        simp [runPurchases, hstep]
      obtain ⟨ih1, ih2, ih3, ih4⟩ := ih s fid v 0 hnd hf hpos hcalls'
      rw [hrun]
      refine ⟨?_, ?_, ?_, ?_⟩
      · have hfil : List.filter (fun r => r.isSuccess)
            (PurchaseResult.soldOut :: (runPurchases s cs).1)
            = List.filter (fun r => r.isSuccess) (runPurchases s cs).1 := by
          simp [List.filter_cons, PurchaseResult.isSuccess]
        rw [hfil, ih1]
        simp only [List.length_cons]
        omega
      · have hfil : List.filter (fun r => decide (r = PurchaseResult.soldOut))
            (PurchaseResult.soldOut :: (runPurchases s cs).1)
            = PurchaseResult.soldOut ::
              List.filter (fun r => decide (r = PurchaseResult.soldOut))
                (runPurchases s cs).1 := by
          simp [List.filter_cons]
        rw [hfil, List.length_cons, ih2]
        simp only [List.length_cons]
        omega
      · rw [ih3]
        simp only [List.length_cons]
        congr 1
        omega
      · rw [ih4]
        simp only [List.length_cons]
        omega
    | (m + 1 : Nat) =>
      have hp : 0 < v.posti_disponibili := by rw [hpos]; omega
      set b := nuovoBiglietto v s.extras c.passeggero_id c.classe c.posto
        c.extra_ids c.oggi with hb
      set s' : DB := { s with voli := reserve_seat_apply s.voli fid,
                              biglietti := s.biglietti ++ [b] } with hs'
      have hstep : runPurchase s c = (.success b, s') := by
        unfold runPurchase
        rw [hcv, hccf]
        exact acquista_biglietto_success s c.passeggero_id fid c.classe c.posto
          c.extra_ids c.oggi v hnd hf hp
      have hrun : runPurchases s (c :: cs) =
          (PurchaseResult.success b :: (runPurchases s' cs).1, (runPurchases s' cs).2) := by
        simp [runPurchases, hstep]
      have hnd' : (s'.voli.map Volo.id_volo).Nodup := by
        rw [hs']
        simpa [map_id_reserve_seat_apply] using hnd
      have hf' : s'.voli.find? (fun w => decide (w.id_volo = fid)) =
          some { v with posti_disponibili := v.posti_disponibili - 1 } :=
        find?_after_reserve s fid v hf hp
      have hpos' : ({ v with posti_disponibili := v.posti_disponibili - 1 }
          : Volo).posti_disponibili = (m : Int) := by
        show v.posti_disponibili - 1 = (m : Int)
        rw [hpos]
        omega
      obtain ⟨ih1, ih2, ih3, ih4⟩ := ih s' fid _ m hnd' hf' hpos' hcalls'
      rw [hrun]
      refine ⟨?_, ?_, ?_, ?_⟩
      · have hfil : List.filter (fun r => r.isSuccess)
            (PurchaseResult.success b :: (runPurchases s' cs).1)
            = PurchaseResult.success b ::
              List.filter (fun r => r.isSuccess) (runPurchases s' cs).1 := by
          simp [List.filter_cons, PurchaseResult.isSuccess]
        rw [hfil, List.length_cons, ih1]
        simp only [List.length_cons]
        omega
      · have hfil : List.filter (fun r => decide (r = PurchaseResult.soldOut))
            (PurchaseResult.success b :: (runPurchases s' cs).1)
            = List.filter (fun r => decide (r = PurchaseResult.soldOut))
                (runPurchases s' cs).1 := by
          simp [List.filter_cons]
        rw [hfil, ih2]
        simp only [List.length_cons]
        omega
      · rw [ih3]
        simp only [List.length_cons]
        congr 1
        omega
      · rw [ih4]
        have hlen : s'.biglietti.length = s.biglietti.length + 1 := by
          rw [hs']
          simp
        rw [hlen]
        simp only [List.length_cons]
        omega

/-! ### Lemmas about the itinerary search -/

theorem mem_sortResults {sb : String} {l : List SearchEntry} {e : SearchEntry} :
    e ∈ sortResults sb l ↔ e ∈ l := by
  unfold sortResults
  split_ifs <;> simp

theorem mem_directEntries {voli : List Volo} {part dest data : Nat} {v : Volo}
    {st : Nat} {pz : ℚ} :
    SearchEntry.direct v st pz ∈ directEntries voli part dest data ↔
      (v ∈ voli ∧ v.aeroporto_partenza = part ∧ v.aeroporto_destinazione = dest ∧
       v.data_partenza = data ∧ 0 < v.posti_disponibili ∧
       st = 0 ∧ pz = v.prezzo_economy) := by
  unfold directEntries voli_diretti
  constructor
  · intro h
    obtain ⟨w, hw, heq⟩ := List.mem_map.mp h
    obtain ⟨hwmem, hwc⟩ := List.mem_filter.mp hw
    obtain ⟨h1, h2, h3, h4⟩ := of_decide_eq_true hwc
    obtain ⟨rfl, rfl, rfl⟩ := SearchEntry.direct.inj heq.symm
    exact ⟨hwmem, h1, h2, h3, h4, rfl, rfl⟩
  · rintro ⟨hmem, h1, h2, h3, h4, rfl, rfl⟩
    exact List.mem_map.mpr ⟨v, List.mem_filter.mpr ⟨hmem, decide_eq_true ⟨h1, h2, h3, h4⟩⟩, rfl⟩

theorem not_connecting_mem_directEntries {voli : List Volo} {part dest data : Nat}
    {v1 v2 : Volo} {st : Nat} {lh pz : ℚ} :
    SearchEntry.connecting v1 v2 st lh pz ∉ directEntries voli part dest data := by
  intro h
  obtain ⟨w, _, heq⟩ := List.mem_map.mp h
  exact SearchEntry.noConfusion heq

theorem not_direct_mem_connectingEntries {voli : List Volo} {part dest data : Nat}
    {v : Volo} {st : Nat} {pz : ℚ} :
    SearchEntry.direct v st pz ∉ connectingEntries voli part dest data := by
  intro h
  obtain ⟨w1, _, h⟩ := List.mem_flatMap.mp h
  obtain ⟨w2, _, hf⟩ := List.mem_filterMap.mp h
  by_cases hc : w1.datetime_arrivo + 120 ≤ w2.datetime_partenza
  · rw [if_pos hc] at hf
    exact SearchEntry.noConfusion (Option.some.inj hf)
  · rw [if_neg hc] at hf
    exact Option.noConfusion hf

/-- The date pre-filter of the `second_leg` query is implied by the in-loop
layover check, as long as the departure time of day is a valid time (< 24h,
guaranteed by the TIME column). -/
theorem date_filter_of_layover (v1 v2 : Volo)
    (hora : v2.ora_partenza < 1440)
    (hc : v1.datetime_arrivo + 120 ≤ v2.datetime_partenza) :
    (v1.datetime_arrivo + 120) / 1440 ≤ v2.data_partenza := by
  unfold Volo.datetime_partenza datetimeCombine at hc
  omega

theorem mem_connectingEntries {voli : List Volo} {part dest data : Nat}
    {v1 v2 : Volo} {st : Nat} {lh pz : ℚ}
    (hora : v2.ora_partenza < 1440) :
    SearchEntry.connecting v1 v2 st lh pz ∈ connectingEntries voli part dest data ↔
      (v1 ∈ voli ∧ v1.aeroporto_partenza = part ∧ v1.data_partenza = data ∧
       0 < v1.posti_disponibili ∧
       v2 ∈ voli ∧ v2.aeroporto_partenza = v1.aeroporto_destinazione ∧
       v2.aeroporto_destinazione = dest ∧ 0 < v2.posti_disponibili ∧
       v1.datetime_arrivo + 120 ≤ v2.datetime_partenza ∧
       st = 1 ∧ lh = ((v2.datetime_partenza : ℚ) - (v1.datetime_arrivo : ℚ)) / 60 ∧
       pz = v1.prezzo_economy + v2.prezzo_economy) := by
  unfold connectingEntries
  constructor
  · intro h
    obtain ⟨w1, hw1, h⟩ := List.mem_flatMap.mp h
    obtain ⟨w2, hw2, hf⟩ := List.mem_filterMap.mp h
    by_cases hc : w1.datetime_arrivo + 120 ≤ w2.datetime_partenza
    · rw [if_pos hc] at hf
      obtain ⟨rfl, rfl, hst, hlh, hpz⟩ := SearchEntry.connecting.inj (Option.some.inj hf)
      obtain ⟨hm1, hc1⟩ := List.mem_filter.mp hw1
      obtain ⟨h11, h12, h13⟩ := of_decide_eq_true hc1
      obtain ⟨hm2, hc2⟩ := List.mem_filter.mp hw2
      obtain ⟨h21, h22, _, h24⟩ := of_decide_eq_true hc2
      exact ⟨hm1, h11, h12, h13, hm2, h21, h22, h24, hc, hst.symm, hlh.symm, hpz.symm⟩
    · rw [if_neg hc] at hf
      exact absurd hf (by simp)
  · rintro ⟨hm1, h11, h12, h13, hm2, h21, h22, h24, hc, rfl, rfl, rfl⟩
    refine List.mem_flatMap.mpr ⟨v1,
      List.mem_filter.mpr ⟨hm1, decide_eq_true ⟨h11, h12, h13⟩⟩,
      List.mem_filterMap.mpr ⟨v2,
        List.mem_filter.mpr ⟨hm2, decide_eq_true
          ⟨h21, h22, date_filter_of_layover v1 v2 hora hc, h24⟩⟩, ?_⟩⟩
    rw [if_pos hc]

theorem mem_search_flights_iff {voli : List Volo} {part dest data : Nat}
    {sb : String} {e : SearchEntry} :
    e ∈ search_flights voli part dest data sb ↔
      e ∈ directEntries voli part dest data ∨
      e ∈ connectingEntries voli part dest data := by
  unfold search_flights
  rw [mem_sortResults, List.mem_append]

theorem sortResults_prezzo (l : List SearchEntry) :
    sortResults "prezzo" l = l.insertionSort fun a b => a.prezzo ≤ b.prezzo := by
  unfold sortResults
  rw [if_pos rfl]

theorem sortResults_durata (l : List SearchEntry) :
    sortResults "durata" l = l.insertionSort fun a b => a.durata ≤ b.durata := by
  unfold sortResults
  rw [if_neg (by decide), if_pos rfl]

theorem sortResults_soste (l : List SearchEntry) :
    sortResults "soste" l = l.insertionSort fun a b => a.stops ≤ b.stops := by
  unfold sortResults
  rw [if_neg (by decide), if_neg (by decide), if_pos rfl]

theorem sorted_search_flights_prezzo (voli : List Volo) (part dest data : Nat) :
    (search_flights voli part dest data "prezzo").Sorted
      (fun a b => a.prezzo ≤ b.prezzo) := by
  haveI : IsTotal SearchEntry fun a b => a.prezzo ≤ b.prezzo :=
    ⟨fun a b => le_total _ _⟩
  haveI : IsTrans SearchEntry fun a b => a.prezzo ≤ b.prezzo :=
    ⟨fun _ _ _ => le_trans⟩
  unfold search_flights
  rw [sortResults_prezzo]
  exact List.sorted_insertionSort _ _

theorem sorted_search_flights_durata (voli : List Volo) (part dest data : Nat) :
    (search_flights voli part dest data "durata").Sorted
      (fun a b => a.durata ≤ b.durata) := by
  haveI : IsTotal SearchEntry fun a b => a.durata ≤ b.durata :=
    ⟨fun a b => le_total _ _⟩
  haveI : IsTrans SearchEntry fun a b => a.durata ≤ b.durata :=
    ⟨fun _ _ _ => le_trans⟩
  unfold search_flights
  rw [sortResults_durata]
  exact List.sorted_insertionSort _ _

theorem sorted_search_flights_soste (voli : List Volo) (part dest data : Nat) :
    (search_flights voli part dest data "soste").Sorted
      (fun a b => a.stops ≤ b.stops) := by
  haveI : IsTotal SearchEntry fun a b => a.stops ≤ b.stops :=
    ⟨fun a b => le_total _ _⟩
  haveI : IsTrans SearchEntry fun a b => a.stops ≤ b.stops :=
    ⟨fun _ _ _ => le_trans⟩
  unfold search_flights
  rw [sortResults_soste]
  exact List.sorted_insertionSort _ _

/-! ### The date pre-filter of the second-leg query is redundant -/

theorem filterMap_filter_congr {α β : Type} (p q : α → Bool) (g : α → Option β)
    (l : List α) (hpq : ∀ v ∈ l, p v = true → q v = true)
    (hnone : ∀ v ∈ l, q v = true → p v = false → g v = none) :
    (l.filter p).filterMap g = (l.filter q).filterMap g := by
  induction l with
  | nil => rfl
  | cons w l ih =>
    have ih' := ih (fun v hv => hpq v (List.mem_cons_of_mem _ hv))
      (fun v hv => hnone v (List.mem_cons_of_mem _ hv))
    rw [List.filter_cons, List.filter_cons]
    by_cases hp : p w = true
    · rw [if_pos hp, if_pos (hpq w (List.mem_cons_self w l) hp)]
      rw [List.filterMap_cons, List.filterMap_cons]
      cases g w <;> simp [ih']
    · rw [if_neg hp]
      by_cases hq : q w = true
      · rw [if_pos hq, List.filterMap_cons,
          hnone w (List.mem_cons_self w l) hq (by simpa using hp)]
        exact ih'
      · rw [if_neg hq]
        exact ih'

theorem connectingEntries_eq_senza_data (voli : List Volo) (part dest data : Nat)
    (hora : ∀ v ∈ voli, v.ora_partenza < 1440) :
    connectingEntries voli part dest data =
      connectingEntriesSenzaData voli part dest data := by
  unfold connectingEntries connectingEntriesSenzaData
  congr 1
  funext volo1
  unfold second_leg second_leg_senza_data
  refine filterMap_filter_congr _ _ _ voli (fun v _ hp => ?_) (fun v hv hq hp => ?_)
  · have h := of_decide_eq_true hp
    exact decide_eq_true ⟨h.1, h.2.1, h.2.2.2⟩
  · have h := of_decide_eq_true hq
    rw [if_neg]
    intro hc
    have hdate := date_filter_of_layover volo1 v (hora v hv) hc
    rw [decide_eq_false_iff_not] at hp
    exact hp ⟨h.1, h.2.1, hdate, h.2.2⟩

/-! ### Extras pricing -/

theorem resolveExtras_cost_eq_spec (extras : List Extra) (extra_ids : List Nat) :
    ((resolveExtras extras extra_ids).map Extra.costo).sum
      = extrasCostSpec extras extra_ids := by
  induction extra_ids with
  | nil => rfl
  | cons i ids ih =>
    unfold resolveExtras extrasCostSpec at *
    rw [List.filterMap_cons, List.map_cons, List.sum_cons]
    cases hfind : extras.find? fun e => decide (e.id_extra = i) with
    | none => simpa [hfind] using ih
    | some e => simp [hfind, ih]

theorem resolveExtras_filter_isSome (extras : List Extra) (extra_ids : List Nat) :
    resolveExtras extras
        (extra_ids.filter fun i =>
          (extras.find? fun e => decide (e.id_extra = i)).isSome)
      = resolveExtras extras extra_ids := by
  induction extra_ids with
  | nil => rfl
  | cons i ids ih =>
    unfold resolveExtras at *
    rw [List.filter_cons]
    by_cases hsome : (extras.find? fun e => decide (e.id_extra = i)).isSome = true
    · rw [if_pos hsome, List.filterMap_cons]
      cases hfind : extras.find? fun e => decide (e.id_extra = i) with
      | none => rw [hfind] at hsome; simp at hsome
      | some e => rw [List.filterMap_cons, hfind]; simp [ih]
    · rw [if_neg hsome, List.filterMap_cons]
      cases hfind : extras.find? fun e => decide (e.id_extra = i) with
      | none => simpa [hfind] using ih
      | some e => rw [hfind] at hsome; simp at hsome

theorem reserve_seat_apply_of_empty (voli : List Volo) (fid : Nat) (v : Volo)
    (hnd : (voli.map Volo.id_volo).Nodup)
    (hf : voli.find? (fun w => decide (w.id_volo = fid)) = some v)
    (hp : v.posti_disponibili ≤ 0) :
    reserve_seat_apply voli fid = voli := by
  have hv : v.id_volo = fid := by simpa using List.find?_some hf
  have hvmem : v ∈ voli := List.mem_of_find?_eq_some hf
  have hinj := List.inj_on_of_nodup_map hnd
  unfold reserve_seat_apply
  have hfix : ∀ u ∈ voli,
      (if u.id_volo = fid ∧ 0 < u.posti_disponibili then
        { u with posti_disponibili := u.posti_disponibili - 1 } else u) = u := by
    intro u hu
    rw [if_neg]
    rintro ⟨hid, hpos⟩
    have huv : u = v := hinj hu hvmem (by rw [hid, hv])
    rw [huv] at hpos
    omega
  calc voli.map _ = voli.map id := List.map_congr_left hfix
  _ = voli := List.map_id voli

theorem mem_connectingEntries_mp {voli : List Volo} {part dest data : Nat}
    {v1 v2 : Volo} {st : Nat} {lh pz : ℚ}
    (h : SearchEntry.connecting v1 v2 st lh pz ∈ connectingEntries voli part dest data) :
    v1 ∈ voli ∧ v1.aeroporto_partenza = part ∧ v1.data_partenza = data ∧
    0 < v1.posti_disponibili ∧
    v2 ∈ voli ∧ v2.aeroporto_partenza = v1.aeroporto_destinazione ∧
    v2.aeroporto_destinazione = dest ∧ 0 < v2.posti_disponibili ∧
    v1.datetime_arrivo + 120 ≤ v2.datetime_partenza ∧
    st = 1 ∧ lh = ((v2.datetime_partenza : ℚ) - (v1.datetime_arrivo : ℚ)) / 60 ∧
    pz = v1.prezzo_economy + v2.prezzo_economy := by
  unfold connectingEntries at h
  obtain ⟨w1, hw1, h⟩ := List.mem_flatMap.mp h
  obtain ⟨w2, hw2, hf⟩ := List.mem_filterMap.mp h
  by_cases hc : w1.datetime_arrivo + 120 ≤ w2.datetime_partenza
  · rw [if_pos hc] at hf
    obtain ⟨rfl, rfl, hst, hlh, hpz⟩ := SearchEntry.connecting.inj (Option.some.inj hf)
    obtain ⟨hm1, hc1⟩ := List.mem_filter.mp hw1
    obtain ⟨h11, h12, h13⟩ := of_decide_eq_true hc1
    obtain ⟨hm2, hc2⟩ := List.mem_filter.mp hw2
    obtain ⟨h21, h22, _, h24⟩ := of_decide_eq_true hc2
    exact ⟨hm1, h11, h12, h13, hm2, h21, h22, h24, hc, hst.symm, hlh.symm, hpz.symm⟩
  · rw [if_neg hc] at hf
    exact absurd hf (by simp)

theorem stops_isDirect_of_mem {voli : List Volo} {part dest data : Nat}
    {sb : String} {e : SearchEntry}
    (h : e ∈ search_flights voli part dest data sb) :
    e.stops = if e.isDirect then 0 else 1 := by
  rw [mem_search_flights_iff] at h
  cases e with
  | direct v st pz =>
    rcases h with h | h
    · obtain ⟨_, _, _, _, _, hst, _⟩ := mem_directEntries.mp h
      simp [SearchEntry.isDirect, SearchEntry.stops, hst]
    · exact absurd h not_direct_mem_connectingEntries
  | connecting v1 v2 st lh pz =>
    rcases h with h | h
    · exact absurd h not_connecting_mem_directEntries
    · obtain ⟨-, -, -, -, -, -, -, -, -, hst, -, -⟩ := mem_connectingEntries_mp h
      simp [SearchEntry.isDirect, SearchEntry.stops, hst]

/-! ## Claim theorems -/

/-- C2.  Seat-ledger semantics: the conditional UPDATE decrements the seat
counter of the targeted flight by exactly one and reports one updated row iff
the counter was positive, reports zero updated rows and leaves the table
unchanged otherwise, and never touches any other flight; consequently, along
any sequence of core search/purchase operations the seat counters never
become negative. -/
theorem seat_ledger_semantics :
    (∀ (voli : List Volo) (fid : Nat) (v : Volo),
      (voli.map Volo.id_volo).Nodup →
      voli.find? (fun w => decide (w.id_volo = fid)) = some v →
      ((0 < v.posti_disponibili →
          reserve_seat_count voli fid = 1 ∧
          seatsOf (reserve_seat_apply voli fid) fid
            = some (v.posti_disponibili - 1)) ∧
       (v.posti_disponibili ≤ 0 →
          reserve_seat_count voli fid = 0 ∧
          reserve_seat_apply voli fid = voli) ∧
       (∀ gid, gid ≠ fid →
          seatsOf (reserve_seat_apply voli fid) gid = seatsOf voli gid))) ∧
    (∀ (s : DB) (ops : List Op), seatsNonneg s → seatsNonneg (runOps s ops)) := by
  constructor
  · intro voli fid v hnd hf
    refine ⟨fun hp => ⟨?_, ?_⟩, fun hp => ⟨?_, ?_⟩, fun gid hg => ?_⟩
    · rw [reserve_seat_count_eq voli fid v hnd hf, if_pos hp]
    · rw [seatsOf_reserve_seat_apply_self voli fid v hf, if_pos hp]
    · rw [reserve_seat_count_eq voli fid v hnd hf, if_neg (not_lt.mpr hp)]
    · exact reserve_seat_apply_of_empty voli fid v hnd hf hp
    · exact seatsOf_reserve_seat_apply_other voli fid gid hg
  · exact fun s ops h => seatsNonneg_runOps s ops h

/-- C2 witness: a two-flight table where flight 1 has 3 seats and flight 2 has
none; the decrement on flight 1 reports one row and leaves flight 2 alone. -/
theorem seat_ledger_semantics_witness :
    reserve_seat_count [⟨1, 0, 480, 0, 600, 3, 1, 2, 100, 200, 300⟩,
        ⟨2, 0, 700, 0, 800, 0, 2, 3, 80, 160, 240⟩] 1 = 1 ∧
    seatsOf (reserve_seat_apply [⟨1, 0, 480, 0, 600, 3, 1, 2, 100, 200, 300⟩,
        ⟨2, 0, 700, 0, 800, 0, 2, 3, 80, 160, 240⟩] 1) 1 = some 2 ∧
    seatsOf (reserve_seat_apply [⟨1, 0, 480, 0, 600, 3, 1, 2, 100, 200, 300⟩,
        ⟨2, 0, 700, 0, 800, 0, 2, 3, 80, 160, 240⟩] 1) 2
      = seatsOf [⟨1, 0, 480, 0, 600, 3, 1, 2, 100, 200, 300⟩,
        ⟨2, 0, 700, 0, 800, 0, 2, 3, 80, 160, 240⟩] 2 := by
  have h := (seat_ledger_semantics.1
    [⟨1, 0, 480, 0, 600, 3, 1, 2, 100, 200, 300⟩,
     ⟨2, 0, 700, 0, 800, 0, 2, 3, 80, 160, 240⟩] 1
    ⟨1, 0, 480, 0, 600, 3, 1, 2, 100, 200, 300⟩ (by decide) (by decide))
  obtain ⟨h1, h2⟩ := h.1 (by decide)
  exact ⟨h1, h2, h.2.2 2 (by decide)⟩

/-- C3.  Atomicity of a late failure: when the seat decrement succeeded but
the commit raises, the call reports `PurchaseFailed` and the rollback leaves
the durable state exactly as before the call (no decrement kept, no ticket
kept); conversely any call reporting `PurchaseFailed` has left the state
unchanged. -/
theorem purchase_failed_atomicity :
    (∀ (s : DB) (pid fid : Nat) (cl : String) (po : Option String)
       (ex : List Nat) (og : Nat) (volo : Volo),
      s.voli.find? (fun w => decide (w.id_volo = fid)) = some volo →
      reserve_seat_count s.voli fid ≠ 0 →
      acquista_biglietto s pid fid cl po ex og true = (.purchaseFailed, s)) ∧
    (∀ (s : DB) (pid fid : Nat) (cl : String) (po : Option String)
       (ex : List Nat) (og : Nat) (cf : Bool),
      (acquista_biglietto s pid fid cl po ex og cf).1 = .purchaseFailed →
      (acquista_biglietto s pid fid cl po ex og cf).2 = s) := by
  constructor
  · intro s pid fid cl po ex og volo hf hcount
    simp [acquista_biglietto, hf, hcount]
  · intro s pid fid cl po ex og cf hres
    cases hfind : s.voli.find? fun w => decide (w.id_volo = fid) with
    | none => simp [acquista_biglietto, hfind]
    | some volo =>
      by_cases hcount : reserve_seat_count s.voli fid = 0
      · simp [acquista_biglietto, hfind, hcount]
      · cases cf with
        | true => simp [acquista_biglietto, hfind, hcount]
        | false =>
          exfalso
          revert hres
          simp [acquista_biglietto, hfind, hcount]

/-- C4.  SoldOut has no effects: a purchase against a flight whose counter is
zero at decrement time reports `SoldOut` and leaves the state untouched (no
ticket, no counter change); conversely any call reporting `SoldOut` has left
the state unchanged. -/
theorem soldout_no_effects :
    (∀ (s : DB) (pid fid : Nat) (cl : String) (po : Option String)
       (ex : List Nat) (og : Nat) (cf : Bool) (v : Volo),
      (s.voli.map Volo.id_volo).Nodup →
      s.voli.find? (fun w => decide (w.id_volo = fid)) = some v →
      v.posti_disponibili ≤ 0 →
      acquista_biglietto s pid fid cl po ex og cf = (.soldOut, s)) ∧
    (∀ (s : DB) (pid fid : Nat) (cl : String) (po : Option String)
       (ex : List Nat) (og : Nat) (cf : Bool),
      (acquista_biglietto s pid fid cl po ex og cf).1 = .soldOut →
      (acquista_biglietto s pid fid cl po ex og cf).2 = s) := by
  constructor
  · intro s pid fid cl po ex og cf v hnd hf hp
    exact acquista_biglietto_soldout s pid fid cl po ex og cf v hnd hf hp
  · intro s pid fid cl po ex og cf hres
    cases hfind : s.voli.find? fun w => decide (w.id_volo = fid) with
    | none => simp [acquista_biglietto, hfind]
    | some volo =>
      by_cases hcount : reserve_seat_count s.voli fid = 0
      · simp [acquista_biglietto, hfind, hcount]
      · cases cf with
        | true => simp [acquista_biglietto, hfind, hcount]
        | false =>
          exfalso
          revert hres
          simp [acquista_biglietto, hfind, hcount]

/-- C1.  No overselling: with a unique flight id holding N seats, any
linearization of N+k purchase calls against that flight (none failing at
commit) yields exactly N successes — each adding one ticket — and k SoldOut
reports, and leaves the seat counter at exactly 0; in particular two callers
racing for the last seat can never both succeed. -/
theorem no_overselling (s : DB) (fid : Nat) (v : Volo) (N k : Nat)
    (calls : List PurchaseCall)
    (hnd : (s.voli.map Volo.id_volo).Nodup)
    (hf : s.voli.find? (fun w => decide (w.id_volo = fid)) = some v)
    (hpos : v.posti_disponibili = (N : Int))
    (hlen : calls.length = N + k) (hk : 1 ≤ k)
    (hcalls : ∀ c ∈ calls, c.volo_id = fid ∧ c.commit_fails = false) :
    ((runPurchases s calls).1.filter (fun r => r.isSuccess)).length = N ∧
    ((runPurchases s calls).1.filter
      (fun r => decide (r = PurchaseResult.soldOut))).length = k ∧
    seatsOf (runPurchases s calls).2.voli fid = some 0 ∧
    (runPurchases s calls).2.biglietti.length = s.biglietti.length + N := by
  obtain ⟨h1, h2, h3, h4⟩ := runPurchases_spec calls s fid v N hnd hf hpos hcalls
  rw [hlen] at h1 h2 h3 h4
  have hmin : min N (N + k) = N := by omega
  rw [hmin] at h1 h2 h3 h4
  refine ⟨h1, ?_, ?_, h4⟩
  · rw [h2]
    omega
  · rw [h3]
    simp

/-- C1 witness: one flight with a single seat, two racing purchase calls:
exactly one succeeds, the other is SoldOut, the counter ends at 0. -/
theorem no_overselling_witness :
    ((runPurchases dbUno [callW1, callW2]).1.filter (fun r => r.isSuccess)).length = 1 ∧
    ((runPurchases dbUno [callW1, callW2]).1.filter
      (fun r => decide (r = PurchaseResult.soldOut))).length = 1 ∧
    seatsOf (runPurchases dbUno [callW1, callW2]).2.voli 1 = some 0 ∧
    (runPurchases dbUno [callW1, callW2]).2.biglietti.length
      = dbUno.biglietti.length + 1 :=
  no_overselling dbUno 1 voloUno 1 1 [callW1, callW2] (by decide) (by decide)
    (by decide) (by decide) (by decide) (by decide)

/-- C7.  Ticket price: a committed ticket is priced at the class price of the
purchased flight (with the economy price as fallback for an unknown or empty
class) plus the cost of every requested extra that resolves; requested ids
that resolve to nothing are skipped without affecting the outcome at all. -/
theorem ticket_price_computation :
    (∀ (s : DB) (pid fid : Nat) (cl : String) (po : Option String)
       (ex : List Nat) (og : Nat) (cf : Bool) (volo : Volo) (b : Biglietto),
      s.voli.find? (fun w => decide (w.id_volo = fid)) = some volo →
      (acquista_biglietto s pid fid cl po ex og cf).1 = .success b →
      b.prezzo = prezzoClasse volo cl + extrasCostSpec s.extras ex) ∧
    (∀ (s : DB) (pid fid : Nat) (cl : String) (po : Option String)
       (ex : List Nat) (og : Nat) (cf : Bool),
      acquista_biglietto s pid fid cl po
        (ex.filter fun i => (s.extras.find? fun e => decide (e.id_extra = i)).isSome)
        og cf
      = acquista_biglietto s pid fid cl po ex og cf) ∧
    (∀ (volo : Volo) (cl : String),
      cl ≠ "economy" → cl ≠ "business" → cl ≠ "first" →
      prezzoClasse volo cl = volo.prezzo_economy) := by
  refine ⟨?_, ?_, ?_⟩
  · intro s pid fid cl po ex og cf volo b hf hres
    by_cases hcount : reserve_seat_count s.voli fid = 0
    · exfalso
      revert hres
      simp [acquista_biglietto, hf, hcount]
    · cases cf with
      | true =>
        exfalso
        revert hres
        simp [acquista_biglietto, hf, hcount]
      | false =>
        have hb : nuovoBiglietto volo s.extras pid cl po ex og = b := by
          have h' := hres
          simpa [acquista_biglietto, hf, hcount] using h'
        rw [← hb]
        show prezzoClasse volo cl + ((resolveExtras s.extras ex).map Extra.costo).sum
          = prezzoClasse volo cl + extrasCostSpec s.extras ex
        rw [resolveExtras_cost_eq_spec]
  · intro s pid fid cl po ex og cf
    cases hfind : s.voli.find? fun w => decide (w.id_volo = fid) with
    | none => simp [acquista_biglietto, hfind]
    | some volo =>
      have hnb : nuovoBiglietto volo s.extras pid cl po
          (ex.filter fun i =>
            (s.extras.find? fun e => decide (e.id_extra = i)).isSome) og
          = nuovoBiglietto volo s.extras pid cl po ex og := by
        unfold nuovoBiglietto
        rw [resolveExtras_filter_isSome]
      simp [acquista_biglietto, hfind, hnb]
  · intro volo cl h1 h2 h3
    unfold prezzoClasse
    rw [if_neg h1, if_neg h2, if_neg h3]

/-- C7 witness: a business-class purchase requesting extras [1, 99], where
only extra 1 exists; the committed ticket is priced by the class-plus-extras
formula with id 99 skipped. -/
theorem ticket_price_computation_witness :
    (nuovoBiglietto voloW dbW.extras 10 "business" none [1, 99] 0).prezzo
      = prezzoClasse voloW "business" + extrasCostSpec dbW.extras [1, 99] :=
  ticket_price_computation.1 dbW 10 1 "business" none [1, 99] 0 false voloW
    (nuovoBiglietto voloW dbW.extras 10 "business" none [1, 99] 0)
    (by decide) (by rfl)

/-- C3 witness: the flight has seats, the decrement succeeds, the commit
fails: the call reports PurchaseFailed and the database is exactly as
before. -/
theorem purchase_failed_atomicity_witness :
    acquista_biglietto dbW 10 1 "economy" none [] 0 true
      = (.purchaseFailed, dbW) :=
  purchase_failed_atomicity.1 dbW 10 1 "economy" none [] 0 voloW
    (by decide) (by decide)

/-- C4 witness: a purchase against the sold-out flight reports SoldOut and
leaves the database untouched. -/
theorem soldout_no_effects_witness :
    acquista_biglietto dbZero 10 2 "economy" none [] 0 false
      = (.soldOut, dbZero) :=
  soldout_no_effects.1 dbZero 10 2 "economy" none [] 0 false voloZero
    (by decide) (by decide) (by decide)

/-- C5.  Layover enforcement: a connecting itinerary (F1, F2) is returned
exactly when, on top of the route/date/availability conditions, F2 departs at
least two hours after F1 arrives (departure times of day being valid TIME
values), and it carries `layover_hours = (F2.departure − F1.arrival)` in
hours; a fixture pair with exactly a 2h gap is returned, one with a 1h59m gap
is not. -/
theorem layover_enforcement :
    (∀ (voli : List Volo) (part dest data : Nat) (sb : String)
       (v1 v2 : Volo) (st : Nat) (lh pz : ℚ),
      v2.ora_partenza < 1440 →
      (SearchEntry.connecting v1 v2 st lh pz
          ∈ search_flights voli part dest data sb ↔
        (v1 ∈ voli ∧ v1.aeroporto_partenza = part ∧ v1.data_partenza = data ∧
         0 < v1.posti_disponibili ∧
         v2 ∈ voli ∧ v2.aeroporto_partenza = v1.aeroporto_destinazione ∧
         v2.aeroporto_destinazione = dest ∧ 0 < v2.posti_disponibili ∧
         v1.datetime_arrivo + 120 ≤ v2.datetime_partenza ∧
         st = 1 ∧
         lh = ((v2.datetime_partenza : ℚ) - (v1.datetime_arrivo : ℚ)) / 60 ∧
         pz = v1.prezzo_economy + v2.prezzo_economy))) ∧
    SearchEntry.connecting voloAB voloBC2h 1 2 180
      ∈ search_flights [voloAB, voloBC2h, voloBC1h59] 1 3 0 "prezzo" ∧
    (∀ (st : Nat) (lh pz : ℚ),
      SearchEntry.connecting voloAB voloBC1h59 st lh pz
        ∉ search_flights [voloAB, voloBC2h, voloBC1h59] 1 3 0 "prezzo") := by
  have hiff : ∀ (voli : List Volo) (part dest data : Nat) (sb : String)
      (v1 v2 : Volo) (st : Nat) (lh pz : ℚ),
      v2.ora_partenza < 1440 →
      (SearchEntry.connecting v1 v2 st lh pz
          ∈ search_flights voli part dest data sb ↔
        (v1 ∈ voli ∧ v1.aeroporto_partenza = part ∧ v1.data_partenza = data ∧
         0 < v1.posti_disponibili ∧
         v2 ∈ voli ∧ v2.aeroporto_partenza = v1.aeroporto_destinazione ∧
         v2.aeroporto_destinazione = dest ∧ 0 < v2.posti_disponibili ∧
         v1.datetime_arrivo + 120 ≤ v2.datetime_partenza ∧
         st = 1 ∧
         lh = ((v2.datetime_partenza : ℚ) - (v1.datetime_arrivo : ℚ)) / 60 ∧
         pz = v1.prezzo_economy + v2.prezzo_economy)) := by
    intro voli part dest data sb v1 v2 st lh pz hora
    rw [mem_search_flights_iff]
    constructor
    · rintro (h | h)
      · exact absurd h not_connecting_mem_directEntries
      · exact mem_connectingEntries_mp h
    · intro hcond
      exact Or.inr ((mem_connectingEntries hora).mpr hcond)
  refine ⟨hiff, ?_, ?_⟩
  · refine (hiff _ 1 3 0 "prezzo" voloAB voloBC2h 1 2 180 (by decide)).mpr
      ⟨by decide, by decide, by decide, by decide, by decide, by decide,
       by decide, by decide, by decide, rfl, ?_, ?_⟩
    · show (2 : ℚ)
        = ((voloBC2h.datetime_partenza : ℚ) - (voloAB.datetime_arrivo : ℚ)) / 60
      norm_num [voloAB, voloBC2h, Volo.datetime_partenza, Volo.datetime_arrivo,
        datetimeCombine]
    · show (180 : ℚ) = voloAB.prezzo_economy + voloBC2h.prezzo_economy
      norm_num [voloAB, voloBC2h]
  · intro st lh pz h
    rw [mem_search_flights_iff] at h
    rcases h with h | h
    · exact not_connecting_mem_directEntries h
    · have hc := (mem_connectingEntries_mp h).2.2.2.2.2.2.2.2.1
      revert hc
      decide

/-- C5 witness: the returned/not-returned characterization instantiated on the
2h-gap fixture pair. -/
theorem layover_enforcement_witness :
    SearchEntry.connecting voloAB voloBC2h 1 2 180
        ∈ search_flights [voloAB, voloBC2h, voloBC1h59] 1 3 0 "durata" ↔
      (voloAB ∈ [voloAB, voloBC2h, voloBC1h59] ∧ voloAB.aeroporto_partenza = 1 ∧
       voloAB.data_partenza = 0 ∧ 0 < voloAB.posti_disponibili ∧
       voloBC2h ∈ [voloAB, voloBC2h, voloBC1h59] ∧
       voloBC2h.aeroporto_partenza = voloAB.aeroporto_destinazione ∧
       voloBC2h.aeroporto_destinazione = 3 ∧ 0 < voloBC2h.posti_disponibili ∧
       voloAB.datetime_arrivo + 120 ≤ voloBC2h.datetime_partenza ∧
       (1 : Nat) = 1 ∧
       (2 : ℚ) = ((voloBC2h.datetime_partenza : ℚ) - (voloAB.datetime_arrivo : ℚ)) / 60 ∧
       (180 : ℚ) = voloAB.prezzo_economy + voloBC2h.prezzo_economy) :=
  layover_enforcement.1 [voloAB, voloBC2h, voloBC1h59] 1 3 0 "durata"
    voloAB voloBC2h 1 2 180 (by decide)

/-- C6.  Every returned direct itinerary carries stops 0 and the economy price
of its flight; every returned connecting itinerary carries stops 1 and the
sum of its two legs' economy prices. -/
theorem search_price_stops :
    ∀ (voli : List Volo) (part dest data : Nat) (sb : String) (e : SearchEntry),
      e ∈ search_flights voli part dest data sb →
      (∀ v st pz, e = .direct v st pz → st = 0 ∧ pz = v.prezzo_economy) ∧
      (∀ v1 v2 st lh pz, e = .connecting v1 v2 st lh pz →
        st = 1 ∧ pz = v1.prezzo_economy + v2.prezzo_economy) := by
  intro voli part dest data sb e he
  rw [mem_search_flights_iff] at he
  constructor
  · rintro v st pz rfl
    rcases he with h | h
    · obtain ⟨_, _, _, _, _, hst, hpz⟩ := mem_directEntries.mp h
      exact ⟨hst, hpz⟩
    · exact absurd h not_direct_mem_connectingEntries
  · rintro v1 v2 st lh pz rfl
    rcases he with h | h
    · exact absurd h not_connecting_mem_directEntries
    · obtain ⟨-, -, -, -, -, -, -, -, -, hst, -, hpz⟩ := mem_connectingEntries_mp h
      exact ⟨hst, hpz⟩

/-- C6 witness: the direct entry returned for a one-flight fixture carries
stops 0 and the economy price. -/
theorem search_price_stops_witness :
    (0 : Nat) = 0 ∧ (100 : ℚ) = voloP100.prezzo_economy :=
  (search_price_stops [voloP100] 1 2 0 "prezzo"
    (SearchEntry.direct voloP100 0 100) (by decide)).1 voloP100 0 100 rfl

/-- C8.  Result ordering: the returned list is sorted ascending by the
caller-selected key (price, duration, or stops), ties keeping the
candidate-generation order (stability of the sort); prices {300, 100, 200}
come back as {100, 200, 300}, and sorting by stops puts the direct itinerary
before the connecting one. -/
theorem result_ordering :
    (∀ (voli : List Volo) (part dest data : Nat),
      List.Sorted (fun a b => SearchEntry.prezzo a ≤ SearchEntry.prezzo b)
        (search_flights voli part dest data "prezzo")) ∧
    (∀ (voli : List Volo) (part dest data : Nat),
      List.Sorted (fun a b => SearchEntry.durata a ≤ SearchEntry.durata b)
        (search_flights voli part dest data "durata")) ∧
    (∀ (voli : List Volo) (part dest data : Nat),
      List.Sorted (fun a b => SearchEntry.stops a ≤ SearchEntry.stops b)
        (search_flights voli part dest data "soste")) ∧
    (∀ (voli : List Volo) (part dest data : Nat),
      List.Pairwise
        (fun a b => SearchEntry.isDirect a = false → SearchEntry.isDirect b = false)
        (search_flights voli part dest data "soste")) ∧
    (∀ (voli : List Volo) (part dest data : Nat) (a b : SearchEntry),
      SearchEntry.prezzo a ≤ SearchEntry.prezzo b →
      List.Sublist [a, b]
        (directEntries voli part dest data ++ connectingEntries voli part dest data) →
      List.Sublist [a, b] (search_flights voli part dest data "prezzo")) ∧
    (∀ (voli : List Volo) (part dest data : Nat) (a b : SearchEntry),
      SearchEntry.durata a ≤ SearchEntry.durata b →
      List.Sublist [a, b]
        (directEntries voli part dest data ++ connectingEntries voli part dest data) →
      List.Sublist [a, b] (search_flights voli part dest data "durata")) ∧
    (∀ (voli : List Volo) (part dest data : Nat) (a b : SearchEntry),
      SearchEntry.stops a ≤ SearchEntry.stops b →
      List.Sublist [a, b]
        (directEntries voli part dest data ++ connectingEntries voli part dest data) →
      List.Sublist [a, b] (search_flights voli part dest data "soste")) ∧
    (search_flights [voloP300, voloP100, voloP200] 1 2 0 "prezzo").map
        SearchEntry.prezzo = [100, 200, 300] ∧
    (search_flights [voloAB, voloBC2h, voloAC] 1 3 0 "soste").map
        SearchEntry.stops = [0, 1] := by
  refine ⟨sorted_search_flights_prezzo, sorted_search_flights_durata,
    sorted_search_flights_soste, ?_, ?_, ?_, ?_, by decide, by decide⟩
  · intro voli part dest data
    refine List.Pairwise.imp_of_mem ?_
      (sorted_search_flights_soste voli part dest data)
    intro a b ha hb hab hconn
    have hsa := stops_isDirect_of_mem ha
    have hsb := stops_isDirect_of_mem hb
    simp [hconn] at hsa
    by_contra hb0
    rw [Bool.not_eq_false] at hb0
    simp [hb0] at hsb
    rw [hsa, hsb] at hab
    omega
  · intro voli part dest data a b hab hsub
    unfold search_flights
    rw [sortResults_prezzo]
    exact List.pair_sublist_insertionSort hab hsub
  · intro voli part dest data a b hab hsub
    unfold search_flights
    rw [sortResults_durata]
    exact List.pair_sublist_insertionSort hab hsub
  · intro voli part dest data a b hab hsub
    unfold search_flights
    rw [sortResults_soste]
    exact List.pair_sublist_insertionSort hab hsub

/-- C8 witness: two direct fixture entries in candidate order with increasing
prices stay in that order in the sorted output. -/
theorem result_ordering_witness :
    List.Sublist
      [SearchEntry.direct voloP100 0 100, SearchEntry.direct voloP200 0 200]
      (search_flights [voloP300, voloP100, voloP200] 1 2 0 "prezzo") :=
  result_ordering.2.2.2.2.1 [voloP300, voloP100, voloP200] 1 2 0
    (SearchEntry.direct voloP100 0 100) (SearchEntry.direct voloP200 0 200)
    (by decide) (by decide)

/-- C9.  The search is read-only: it returns the database state unchanged,
repeating it on the resulting state returns the same results, and any
sequence of search operations leaves the state exactly where it started. -/
theorem search_side_effect_free :
    (∀ (s : DB) (part dest data : Nat) (sb : String),
      (searchOp s part dest data sb).2 = s ∧
      (searchOp ((searchOp s part dest data sb).2) part dest data sb).1
        = (searchOp s part dest data sb).1) ∧
    (∀ (s : DB) (ops : List Op),
      (∀ op ∈ ops, ∃ part dest data sb, op = Op.search part dest data sb) →
      runOps s ops = s) := by
  constructor
  · exact fun s part dest data sb => ⟨rfl, rfl⟩
  · intro s ops
    induction ops generalizing s with
    | nil => intro _; rfl
    | cons op ops ih =>
      intro h
      obtain ⟨part, dest, data, sb, rfl⟩ := h op (List.mem_cons_self op ops)
      exact ih s fun op' hop' => h op' (List.mem_cons_of_mem _ hop')

/-- C9 witness: one search operation leaves the one-flight database as it
was. -/
theorem search_side_effect_free_witness :
    runOps dbUno [Op.search 1 2 0 "prezzo"] = dbUno :=
  search_side_effect_free.2 dbUno [Op.search 1 2 0 "prezzo"]
    fun op hop => ⟨1, 2, 0, "prezzo", by
      rw [List.mem_singleton] at hop
      exact hop⟩

/-- C10.  The second leg of a connection is not tied to the searched date:
the date pre-filter of the second-leg query is implied by the in-loop layover
check (for valid departure times of day), so dropping it changes nothing, and
a fixture whose second leg departs on the day after the searched date is
returned. -/
theorem connection_dates :
    (∀ (voli : List Volo) (part dest data : Nat),
      (∀ v ∈ voli, v.ora_partenza < 1440) →
      connectingEntries voli part dest data
        = connectingEntriesSenzaData voli part dest data) ∧
    (∀ (v1 v2 : Volo), v2.ora_partenza < 1440 →
      v1.datetime_arrivo + 120 ≤ v2.datetime_partenza →
      (v1.datetime_arrivo + 120) / 1440 ≤ v2.data_partenza) ∧
    SearchEntry.connecting voloNotte1 voloNotte2 1 2 180
      ∈ search_flights [voloNotte1, voloNotte2] 1 3 0 "prezzo" ∧
    voloNotte2.data_partenza ≠ 0 := by
  refine ⟨connectingEntries_eq_senza_data, date_filter_of_layover, ?_, by decide⟩
  refine mem_search_flights_iff.mpr (Or.inr ((mem_connectingEntries (by decide)).mpr
    ⟨by decide, by decide, by decide, by decide, by decide, by decide,
     by decide, by decide, by decide, rfl, ?_, ?_⟩))
  · show (2 : ℚ)
      = ((voloNotte2.datetime_partenza : ℚ) - (voloNotte1.datetime_arrivo : ℚ)) / 60
    norm_num [voloNotte1, voloNotte2, Volo.datetime_partenza, Volo.datetime_arrivo,
      datetimeCombine]
  · show (180 : ℚ) = voloNotte1.prezzo_economy + voloNotte2.prezzo_economy
    norm_num [voloNotte1, voloNotte2]

/-- C10 witness: dropping the date pre-filter changes nothing on the
overnight fixture. -/
theorem connection_dates_witness :
    connectingEntries [voloNotte1, voloNotte2] 1 3 0
      = connectingEntriesSenzaData [voloNotte1, voloNotte2] 1 3 0 :=
  connection_dates.1 [voloNotte1, voloNotte2] 1 3 0 (by decide)

end BasiDiDati
